import Mathlib

/-!
Verification of the face-detection pipeline in
`src/models/face_detection_model.py` (class `FaceDetectionModel`).

The embedding models the pipeline shallowly:

* `Image` is an opaque dense pixel buffer (height, width, flat data).
* External collaborators (the learned detector, OpenCV's colour conversion
  and cascade detector, the DeepFace analysis calls, and the drawing
  backend) are fields of an `Env` record.  Fallible foreign calls return
  `Except Unit _`: `.error ()` models a raised exception.
* The two lazy model-loaded flags (`emotion_model_loaded`,
  `age_gender_model_loaded`) are threaded explicitly as `ModelFlags`.
* Drawing is observed through a trace of `DrawCmd` values, each naming the
  buffer it targets; the final buffers are obtained by folding the
  environment's rendering primitives over the trace.
* `detect_faces` returns `Except Unit DetectResult`: a `.error` result
  models an exception crossing the `detect_faces` boundary.
-/

structure Image where
  height : Nat
  width : Nat
  data : List Nat
deriving DecidableEq, Repr

/-- Bounding box `(x1, y1, x2, y2)` in pixel coordinates. -/
abbrev Box := Nat × Nat × Nat × Nat

/-- One raw prediction of the learned detector: box, score, class label
(the source extracts `boxes`/`scores` from `prediction[0]`; `labels` is
available there but never consulted). -/
structure TorchPred where
  box : Box
  score : Rat
  label : Nat
deriving DecidableEq, Repr

/-- One record returned by `DeepFace.analyze(..., actions=['emotion'], ...)`. -/
structure EmotionRec where
  dominant_emotion : String
deriving DecidableEq, Repr

/-- One record returned by `DeepFace.analyze(..., actions=['age','gender'], ...)`. -/
structure AgeGenderRec where
  age : Int
  dominant_gender : String
deriving DecidableEq, Repr

/-- The two lazily loaded DeepFace sub-model flags of the pipeline object
(`self.emotion_model_loaded`, `self.age_gender_model_loaded`). -/
structure ModelFlags where
  emotion_model_loaded : Bool
  age_gender_model_loaded : Bool
deriving DecidableEq, Repr

/-- Which sub-model group a warm-up inference in `_ensure_models_loaded`
was attempted for. -/
inductive WarmGroup where
  | emotion
  | ageGender
deriving DecidableEq, Repr

/-- Which image buffer a drawing call targets: the caller's `image` or the
working copy `result_img`. -/
inductive Target where
  | input
  | result
deriving DecidableEq, Repr

/-- One drawing call issued by `detect_faces` (coordinates as Python ints,
which may be negative for the label strip above a box near the top edge). -/
inductive DrawCmd where
  | rect (t : Target) (x1 y1 x2 y2 : Int)
  | filledRect (t : Target) (x1 y1 x2 y2 : Int)
  | text (t : Target) (s : String) (x y : Int)
deriving DecidableEq, Repr

/-- The buffer a drawing command targets. -/
def DrawCmd.target : DrawCmd → Target
  | .rect t _ _ _ _ => t
  | .filledRect t _ _ _ _ => t
  | .text t _ _ _ => t

/-- The external world of the pipeline: capability-probe outcomes fixed at
construction, plus the foreign calls.  A call that can raise is modelled as
returning `Except Unit _`. -/
structure Env where
  torch_available : Bool
  cascade_available : Bool
  deepface_available : Bool
  torchPredict : Image → Except Unit (List TorchPred)
  cvtColor : Image → Except Unit Image
  detectMultiScale : Image → Except Unit (List (Nat × Nat × Nat × Nat))
  analyzeEmotion : Image → Box → Except Unit (List EmotionRec)
  analyzeAgeGender : Image → Box → Except Unit (List AgeGenderRec)
  warm_emotion_ok : Bool
  warm_age_gender_ok : Bool
  getTextWidth : String → Nat
  renderRect : Image → Int × Int × Int × Int → Image
  renderFilledRect : Image → Int × Int × Int × Int → Image
  renderText : Image → String → Int × Int → Image

/-- The two image buffers alive during a call: the caller's `image` and the
working copy `result_img`. -/
structure Buffers where
  input : Image
  result : Image
deriving DecidableEq, Repr

/-- One per-face record of `face_data`. -/
structure FaceInfo where
  box : Box
  confidence : Rat
  emotion : Option String
  age : Option Int
  gender : Option String
deriving DecidableEq, Repr

/-- Everything a successful `detect_faces` call produces: the two buffers
after drawing, the face records, the post-call lazy flags, the warm-up
attempts made, and the drawing trace. -/
structure DetectResult where
  buffers : Buffers
  faces : List FaceInfo
  flags : ModelFlags
  attempts : List WarmGroup
  cmds : List DrawCmd
deriving DecidableEq, Repr

/-- Height of the numpy crop `image[y1:y2, x1:x2]` (rows), with numpy's
clipping slice semantics for non-negative indices. -/
def cropHeight (img : Image) (b : Box) : Nat :=
  min b.2.2.2 img.height - min b.2.1 img.height

/-- Width of the numpy crop `image[y1:y2, x1:x2]` (columns). -/
def cropWidth (img : Image) (b : Box) : Nat :=
  min b.2.2.1 img.width - min b.1 img.width

/-- `_ensure_models_loaded` (lines 42-64): returns from the top when
DeepFace is unavailable; otherwise, whenever at least one flag is still
false, runs both warm-up inferences (each in its own bare `except`), and
sets a flag to `true` exactly when its warm-up succeeded.  The returned
list records which warm-up inferences were attempted. -/
def ensure_models_loaded (env : Env) (st : ModelFlags) : ModelFlags × List WarmGroup :=
  if !env.deepface_available then (st, [])
  else if !st.emotion_model_loaded || !st.age_gender_model_loaded then
    let st1 := if env.warm_emotion_ok then { st with emotion_model_loaded := true } else st
    let st2 := if env.warm_age_gender_ok then { st1 with age_gender_model_loaded := true } else st1
    (st2, [WarmGroup.emotion, WarmGroup.ageGender])
  else (st, [])

/-- `_detect_faces_opencv` (lines 66-78): grayscale conversion, cascade
detection, then each `(x, y, w, h)` becomes box `[x, y, x+w, y+h]` with
score `1.0`.  Neither foreign call is wrapped in a handler, so either
failure propagates. -/
def detect_faces_opencv (env : Env) (img : Image) : Except Unit (List (Box × Rat)) :=
  match env.cvtColor img with
  | .error e => .error e
  | .ok gray =>
    match env.detectMultiScale gray with
    | .error e => .error e
    | .ok faces =>
      .ok (faces.map (fun r => ((r.1, r.2.1, r.1 + r.2.2.1, r.2.1 + r.2.2.2), (1 : Rat))))

/-- Candidate extraction on the learned-detector path (lines 104-106):
keep exactly the predictions with `score > 0.7`, pairing box with score;
the prediction's class label is never consulted. -/
def torchCandidates (pred : List TorchPred) : List (Box × Rat) :=
  (pred.filter (fun p => mkRat 7 10 < p.score)).map (fun p => (p.box, p.score))

/-- Raw detections of the selected detector, before any filtering: all
predictions on the learned path, all cascade rectangles on the fallback
path, nothing when no detector is available. -/
def rawDetections (env : Env) (img : Image) : Except Unit (List (Box × Rat)) :=
  if env.torch_available then
    match env.torchPredict img with
    | .error e => .error e
    | .ok pred => .ok (pred.map (fun p => (p.box, p.score)))
  else if env.cascade_available then
    detect_faces_opencv env img
  else
    .ok []

/-- The age/gender half of the per-face analysis block (lines 148-152):
runs only when its flag is set; a raised exception is caught (by the
single shared handler), keeping whatever fields were assigned before. -/
def analyzeAgeGenderStep (env : Env) (st : ModelFlags) (img : Image) (b : Box)
    (fi : FaceInfo) : FaceInfo :=
  if st.age_gender_model_loaded then
    match env.analyzeAgeGender img b with
    | .error _ => fi
    | .ok recs =>
      match recs with
      | [] => fi
      | r :: _ => { fi with age := some r.age, gender := some r.dominant_gender }
  else fi

/-- The per-face analysis `try` block (lines 142-154).  Both analyses live
in one `try`, so an exception raised by the emotion call skips the
age/gender call for that face; either exception is absorbed at this face. -/
def analyzeFace (env : Env) (st : ModelFlags) (img : Image) (b : Box)
    (fi : FaceInfo) : FaceInfo :=
  if st.emotion_model_loaded then
    match env.analyzeEmotion img b with
    | .error _ => fi
    | .ok recs =>
      let fi1 := match recs with
        | [] => fi
        | r :: _ => { fi with emotion := some r.dominant_emotion }
      analyzeAgeGenderStep env st img b fi1
  else
    analyzeAgeGenderStep env st img b fi

/-- The emotion segment of the label (line 163-164): appended only when
the field is truthy in Python, i.e. non-null and non-empty. -/
def emotionPart (em : Option String) : String :=
  match em with
  | none => ""
  | some e => if e = "" then "" else "Emotion: " ++ e ++ " "

/-- The age segment of the label (line 165-166): appended only when the
field is truthy in Python, i.e. non-null and non-zero. -/
def agePart (ag : Option Int) : String :=
  match ag with
  | none => ""
  | some a => if a = 0 then "" else "Age: " ++ toString a ++ " "

/-- The gender segment of the label (line 167-168): appended only when the
field is truthy in Python, i.e. non-null and non-empty. -/
def genderPart (gd : Option String) : String :=
  match gd with
  | none => ""
  | some g => if g = "" then "" else "Gender: " ++ g

/-- Label composition (lines 162-168): the three `+=` blocks in order;
Python truthiness on each field, so `None`, the empty string, and age `0`
all contribute nothing; the emotion and age segments carry a trailing
space. -/
def labelOf (fi : FaceInfo) : String :=
  emotionPart fi.emotion ++ agePart fi.age ++ genderPart fi.gender

/-- Drawing calls for one retained face (lines 158-174): the bounding-box
rectangle always, and, when the label is non-empty, a filled background
strip from `(x1, y1-20)` to `(x1 + textWidth, y1)` and the label text at
`(x1, y1-5)`; every call targets `result_img`. -/
def drawCmdsFor (env : Env) (fi : FaceInfo) : List DrawCmd :=
  let x1 : Int := fi.box.1
  let y1 : Int := fi.box.2.1
  let x2 : Int := fi.box.2.2.1
  let y2 : Int := fi.box.2.2.2
  let label := labelOf fi
  DrawCmd.rect Target.result x1 y1 x2 y2 ::
    (if label = "" then []
     else [DrawCmd.filledRect Target.result x1 (y1 - 20) (x1 + env.getTextWidth label) y1,
           DrawCmd.text Target.result label x1 (y1 - 5)])

/-- The guard at line 140: the analysis block runs only when DeepFace is
available; otherwise the record keeps its null fields. -/
def enrichFace (env : Env) (st : ModelFlags) (img : Image) (b : Box)
    (fi0 : FaceInfo) : FaceInfo :=
  if env.deepface_available then analyzeFace env st img b fi0 else fi0

/-- One iteration of the loop over candidates (lines 118-174): crop the
region from the original image, skip when the crop is empty or smaller
than 20 pixels in either dimension, otherwise build the record (fields
start null), run the analysis block if DeepFace is available, and emit
the drawing calls. -/
def processFace (env : Env) (st : ModelFlags) (img : Image) (c : Box × Rat) :
    Option (FaceInfo × List DrawCmd) :=
  let b := c.1
  let h := cropHeight img b
  let w := cropWidth img b
  if h * w * 3 = 0 || h < 20 || w < 20 then none
  else
    let fi0 : FaceInfo :=
      { box := b, confidence := c.2, emotion := none, age := none, gender := none }
    let fi := enrichFace env st img b fi0
    some (fi, drawCmdsFor env fi)

/-- The whole loop over candidates, in order: surviving records are
appended in detection order and their drawing calls are concatenated in
the same order. -/
def processLoop (env : Env) (st : ModelFlags) (img : Image) :
    List (Box × Rat) → List FaceInfo × List DrawCmd
  | [] => ([], [])
  | c :: rest =>
    match processFace env st img c with
    | none => processLoop env st img rest
    | some (fi, cmds) =>
      let r := processLoop env st img rest
      (fi :: r.1, cmds ++ r.2)

/-- Render one drawing command onto the buffer it targets, via the
environment's drawing backend. -/
def renderOn (env : Env) (img : Image) : DrawCmd → Image
  | .rect _ x1 y1 x2 y2 => env.renderRect img (x1, y1, x2, y2)
  | .filledRect _ x1 y1 x2 y2 => env.renderFilledRect img (x1, y1, x2, y2)
  | .text _ s x y => env.renderText img s (x, y)

/-- Apply one drawing command to the pair of buffers, modifying exactly
the buffer it targets. -/
def applyCmd (env : Env) (bufs : Buffers) (c : DrawCmd) : Buffers :=
  match c.target with
  | Target.input => { bufs with input := renderOn env bufs.input c }
  | Target.result => { bufs with result := renderOn env bufs.result c }

/-- The tail of `detect_faces` after candidates are in hand (lines
114-176): conditionally ensure the DeepFace models, run the loop, render
the trace onto the buffers. -/
def finishDetect (env : Env) (st : ModelFlags) (img : Image) (bufs : Buffers)
    (cands : List (Box × Rat)) : DetectResult :=
  let ea := if env.deepface_available then ensure_models_loaded env st else (st, [])
  let fc := processLoop env ea.1 img cands
  { buffers := fc.2.foldl (applyCmd env) bufs
    faces := fc.1
    flags := ea.1
    attempts := ea.2
    cmds := fc.2 }

/-- `detect_faces` (lines 80-176).  `result_img = image.copy()` starts the
working buffer equal to the input; the detector is selected fresh per
call (learned preferred, cascade fallback, else return `(copy, [])`); a
failure of the selected detector's own foreign calls is not handled
anywhere in the function and so propagates as `.error`. -/
def detect_faces (env : Env) (st : ModelFlags) (img : Image) :
    Except Unit DetectResult :=
  let bufs0 : Buffers := { input := img, result := img }
  if env.torch_available then
    match env.torchPredict img with
    | .error e => .error e
    | .ok pred => .ok (finishDetect env st img bufs0 (torchCandidates pred))
  else if env.cascade_available then
    match detect_faces_opencv env img with
    | .error e => .error e
    | .ok cands => .ok (finishDetect env st img bufs0 cands)
  else
    .ok { buffers := bufs0, faces := [], flags := st, attempts := [], cmds := [] }

/-- A blank 100x100 probe image used in concrete instantiations. -/
def imgW : Image := { height := 100, width := 100, data := [0] }

/-- A base environment: no capability available, all foreign calls succeed
trivially, rendering primitives leave the buffer unchanged. -/
def baseEnv : Env where
  torch_available := false
  cascade_available := false
  deepface_available := false
  torchPredict := fun _ => .ok []
  cvtColor := fun i => .ok i
  detectMultiScale := fun _ => .ok []
  analyzeEmotion := fun _ _ => .ok []
  analyzeAgeGender := fun _ _ => .ok []
  warm_emotion_ok := true
  warm_age_gender_ok := true
  getTextWidth := fun _ => 10
  renderRect := fun i _ => i
  renderFilledRect := fun i _ => i
  renderText := fun i _ _ => i

/-- Success of the selected detector's own foreign calls: tensor inference
on the learned path, colour conversion plus cascade detection on the
fallback path.  These are the only calls of `detect_faces` that no
handler covers. -/
def detectorCallsOk (env : Env) (img : Image) : Bool :=
  if env.torch_available then (env.torchPredict img).isOk
  else if env.cascade_available then (detect_faces_opencv env img).isOk
  else true

/-- Replace every prediction's class label, leaving boxes and scores
unchanged. -/
def relabel (f : Nat → Nat) (pred : List TorchPred) : List TorchPred :=
  pred.map (fun p => { p with label := f p.label })

/-- Learned detector available, two predictions (one above, one below the
confidence threshold), no DeepFace. -/
def envW : Env := { baseEnv with
  torch_available := true
  torchPredict := fun _ =>
    .ok [⟨(0, 30, 50, 80), mkRat 9 10, 1⟩, ⟨(1, 1, 5, 5), mkRat 3 10, 2⟩] }

/-- The single face record `detect_faces envW` produces on `imgW`. -/
def fiW : FaceInfo :=
  { box := (0, 30, 50, 80), confidence := mkRat 9 10
    emotion := none, age := none, gender := none }

/-- The full result of `detect_faces envW ⟨false, false⟩ imgW`. -/
def resW : DetectResult :=
  { buffers := { input := imgW, result := imgW }
    faces := [fiW]
    flags := { emotion_model_loaded := false, age_gender_model_loaded := false }
    attempts := []
    cmds := [DrawCmd.rect Target.result 0 30 50 80] }

/-- The raw detections `envW`'s learned detector reports on `imgW`. -/
def rawW : List (Box × Rat) :=
  [((0, 30, 50, 80), mkRat 9 10), ((1, 1, 5, 5), mkRat 3 10)]

/-- Only the cascade detector available, and its `detectMultiScale` call
raises — the real-world situation of a `CascadeClassifier` constructed
from a missing asset file, which loads empty without raising and then
fails inside `detectMultiScale`. -/
def envCascadeRaises : Env := { baseEnv with
  cascade_available := true
  detectMultiScale := fun _ => .error () }

/-- Learned detector and DeepFace available; the emotion analysis raises
on every crop while the age/gender analysis would succeed. -/
def envEmotionRaises : Env := { baseEnv with
  torch_available := true
  deepface_available := true
  torchPredict := fun _ => .ok [⟨(0, 30, 50, 80), mkRat 9 10, 1⟩]
  analyzeEmotion := fun _ _ => .error ()
  analyzeAgeGender := fun _ _ => .ok [⟨30, "Man"⟩] }

/-- DeepFace available but both warm-ups fail. -/
def envDeepFaceOnly : Env := { baseEnv with
  deepface_available := true
  warm_emotion_ok := false
  warm_age_gender_ok := false }

/-- Learned detector and DeepFace available; the emotion analysis succeeds
but reports the empty string as dominant emotion. -/
def envFalsyEmotion : Env := { baseEnv with
  torch_available := true
  deepface_available := true
  torchPredict := fun _ => .ok [⟨(0, 30, 50, 80), mkRat 9 10, 1⟩]
  analyzeEmotion := fun _ _ => .ok [⟨""⟩]
  warm_emotion_ok := false
  warm_age_gender_ok := false }

/-- Learned detector and DeepFace available; the emotion analysis reports
a non-empty dominant emotion. -/
def envHappy : Env := { baseEnv with
  torch_available := true
  deepface_available := true
  torchPredict := fun _ => .ok [⟨(0, 30, 50, 80), mkRat 9 10, 1⟩]
  analyzeEmotion := fun _ _ => .ok [⟨"happy"⟩] }

/-- The record `processFace envHappy` produces for the box `(0,30,50,80)`. -/
def fiHappy : FaceInfo :=
  { box := (0, 30, 50, 80), confidence := mkRat 9 10
    emotion := some "happy", age := none, gender := none }

/-- The drawing calls `processFace envHappy` emits for `fiHappy`. -/
def cmdsHappy : List DrawCmd :=
  [DrawCmd.rect Target.result 0 30 50 80,
   DrawCmd.filledRect Target.result 0 10 10 30,
   DrawCmd.text Target.result "Emotion: happy " 0 25]

/-- The predictions used to instantiate the label-blindness theorem. -/
def predsW : List TorchPred :=
  [⟨(0, 30, 50, 80), mkRat 9 10, 1⟩, ⟨(1, 1, 5, 5), mkRat 3 10, 2⟩]

theorem analyzeAgeGenderStep_preserves (env : Env) (st : ModelFlags) (img : Image)
    (b : Box) (fi : FaceInfo) :
    (analyzeAgeGenderStep env st img b fi).box = fi.box ∧
    (analyzeAgeGenderStep env st img b fi).confidence = fi.confidence ∧
    (analyzeAgeGenderStep env st img b fi).emotion = fi.emotion := by
  unfold analyzeAgeGenderStep
  repeat' split
  all_goals exact ⟨rfl, rfl, rfl⟩

theorem analyzeFace_preserves (env : Env) (st : ModelFlags) (img : Image)
    (b : Box) (fi : FaceInfo) :
    (analyzeFace env st img b fi).box = fi.box ∧
    (analyzeFace env st img b fi).confidence = fi.confidence := by
  unfold analyzeFace
  split
  · split
    · exact ⟨rfl, rfl⟩
    · rename_i recs heq
      cases recs with
      | nil =>
        have hp := analyzeAgeGenderStep_preserves env st img b fi
        exact ⟨hp.1, hp.2.1⟩
      | cons r rest =>
        have hp := analyzeAgeGenderStep_preserves env st img b
          { fi with emotion := some r.dominant_emotion }
        exact ⟨hp.1, hp.2.1⟩
  · have hp := analyzeAgeGenderStep_preserves env st img b fi
    exact ⟨hp.1, hp.2.1⟩

theorem enrichFace_preserves (env : Env) (st : ModelFlags) (img : Image)
    (b : Box) (fi : FaceInfo) :
    (enrichFace env st img b fi).box = fi.box ∧
    (enrichFace env st img b fi).confidence = fi.confidence := by
  unfold enrichFace
  split
  · exact analyzeFace_preserves env st img b fi
  · exact ⟨rfl, rfl⟩

theorem processFace_some (env : Env) (st : ModelFlags) (img : Image) (c : Box × Rat)
    (fi : FaceInfo) (cmds : List DrawCmd)
    (h : processFace env st img c = some (fi, cmds)) :
    fi.box = c.1 ∧ fi.confidence = c.2 ∧
    20 ≤ cropHeight img c.1 ∧ 20 ≤ cropWidth img c.1 ∧
    cmds = drawCmdsFor env fi := by
  simp only [processFace] at h
  split at h
  · exact absurd h (by simp)
  · rename_i hguard
    simp only [Bool.or_eq_true, decide_eq_true_eq, not_or] at hguard
    obtain ⟨⟨-, hh⟩, hw⟩ := hguard
    simp only [Option.some.injEq, Prod.mk.injEq] at h
    obtain ⟨hfi, hcmds⟩ := h
    refine ⟨?_, ?_, by omega, by omega, ?_⟩
    · rw [← hfi]
      exact (enrichFace_preserves env st img c.1 _).1
    · rw [← hfi]
      exact (enrichFace_preserves env st img c.1 _).2
    · rw [← hcmds, hfi]

theorem processLoop_mem (env : Env) (st : ModelFlags) (img : Image) :
    ∀ (l : List (Box × Rat)) (fi : FaceInfo), fi ∈ (processLoop env st img l).1 →
      ∃ c ∈ l, ∃ cmds, processFace env st img c = some (fi, cmds) := by
  intro l
  induction l with
  | nil => intro fi h; simp [processLoop] at h
  | cons c rest ih =>
    intro fi h
    rw [processLoop] at h
    rcases hc : processFace env st img c with _ | p
    · rw [hc] at h
      obtain ⟨c', hc', hcm⟩ := ih fi h
      exact ⟨c', List.mem_cons_of_mem _ hc', hcm⟩
    · rw [hc] at h
      rcases List.mem_cons.mp h with h1 | h2
      · exact ⟨c, List.mem_cons_self _ _, p.2, by rw [hc, h1]⟩
      · obtain ⟨c', hc', hcm⟩ := ih fi h2
        exact ⟨c', List.mem_cons_of_mem _ hc', hcm⟩

theorem processLoop_boxes_sublist (env : Env) (st : ModelFlags) (img : Image) :
    ∀ l : List (Box × Rat),
      ((processLoop env st img l).1.map FaceInfo.box).Sublist (l.map Prod.fst) := by
  intro l
  induction l with
  | nil => simp [processLoop]
  | cons c rest ih =>
    rw [processLoop]
    rcases hc : processFace env st img c with _ | p
    · exact ih.trans (List.sublist_cons_self _ _)
    · have hbox := (processFace_some env st img c p.1 p.2 (by rw [hc])).1
      simpa [hbox] using List.Sublist.cons₂ c.1 ih

theorem processLoop_cmds_target (env : Env) (st : ModelFlags) (img : Image) :
    ∀ (l : List (Box × Rat)) (d : DrawCmd), d ∈ (processLoop env st img l).2 →
      d.target = Target.result := by
  intro l
  induction l with
  | nil => intro d h; simp [processLoop] at h
  | cons c rest ih =>
    intro d h
    rw [processLoop] at h
    rcases hc : processFace env st img c with _ | p
    · rw [hc] at h
      exact ih d h
    · rw [hc] at h
      rcases List.mem_append.mp h with h1 | h2
      · have hcmds := (processFace_some env st img c p.1 p.2 (by rw [hc])).2.2.2.2
        rw [hcmds] at h1
        simp only [drawCmdsFor] at h1
        rcases List.mem_cons.mp h1 with h3 | h4
        · rw [h3]; rfl
        · split at h4
          · simp at h4
          · rcases List.mem_cons.mp h4 with h5 | h6
            · rw [h5]; rfl
            · rcases List.mem_cons.mp h6 with h7 | h8
              · rw [h7]; rfl
              · simp at h8
      · exact ih d h2

theorem foldl_applyCmd_input (env : Env) :
    ∀ (cmds : List DrawCmd) (bufs : Buffers),
      (∀ d ∈ cmds, d.target = Target.result) →
      (cmds.foldl (applyCmd env) bufs).input = bufs.input := by
  intro cmds
  induction cmds with
  | nil => intro bufs _; rfl
  | cons d rest ih =>
    intro bufs h
    have hd := h d (List.mem_cons_self _ _)
    have hrest : ∀ d' ∈ rest, DrawCmd.target d' = Target.result :=
      fun d' h' => h d' (List.mem_cons_of_mem _ h')
    rw [List.foldl_cons, ih _ hrest]
    unfold applyCmd
    rw [hd]

theorem detect_faces_ok_cases (env : Env) (st : ModelFlags) (img : Image)
    (res : DetectResult) (h : detect_faces env st img = .ok res) :
    (env.torch_available = true ∧ ∃ pred, env.torchPredict img = .ok pred ∧
      res = finishDetect env st img ⟨img, img⟩ (torchCandidates pred)) ∨
    (env.torch_available = false ∧ env.cascade_available = true ∧
      ∃ cands, detect_faces_opencv env img = .ok cands ∧
        res = finishDetect env st img ⟨img, img⟩ cands) ∨
    (env.torch_available = false ∧ env.cascade_available = false ∧
      res = ⟨⟨img, img⟩, [], st, [], []⟩) := by
  unfold detect_faces at h
  rcases htorch : env.torch_available with _ | _
  · rcases hcasc : env.cascade_available with _ | _
    · rw [htorch, hcasc] at h
      simp only [Bool.false_eq_true, if_false, Except.ok.injEq] at h
      exact Or.inr (Or.inr ⟨rfl, rfl, h.symm⟩)
    · rw [htorch, hcasc] at h
      simp only [Bool.false_eq_true, if_false, if_true] at h
      rcases hcv : detect_faces_opencv env img with e | cands
      · rw [hcv] at h; exact absurd h (by simp)
      · rw [hcv] at h
        simp only [Except.ok.injEq] at h
        exact Or.inr (Or.inl ⟨rfl, rfl, cands, rfl, h.symm⟩)
  · rw [htorch] at h
    simp only [if_true] at h
    rcases hp : env.torchPredict img with e | pred
    · rw [hp] at h; exact absurd h (by simp)
    · rw [hp] at h
      simp only [Except.ok.injEq] at h
      exact Or.inl ⟨rfl, pred, rfl, h.symm⟩

theorem strlen_eq_zero (s : String) (h : s.length = 0) : s = "" := by
  cases s with
  | mk data =>
    cases data with
    | nil => rfl
    | cons c cs => simp [String.length] at h

theorem append3_eq_empty (p1 p2 p3 : String) :
    p1 ++ p2 ++ p3 = "" ↔ p1 = "" ∧ p2 = "" ∧ p3 = "" := by
  constructor
  · intro h
    have h2 := congrArg String.length h
    simp [String.length_append] at h2
    exact ⟨strlen_eq_zero _ h2.1.1, strlen_eq_zero _ h2.1.2, strlen_eq_zero _ h2.2⟩
  · rintro ⟨h1, h2, h3⟩
    rw [h1, h2, h3]
    rfl

theorem emotionPart_eq_empty (em : Option String) :
    emotionPart em = "" ↔ (em = none ∨ em = some "") := by
  cases em with
  | none => simp [emotionPart]
  | some e =>
    by_cases he : e = ""
    · simp [emotionPart, he]
    · simp only [emotionPart, he, if_false, Option.some.injEq, false_or]
      constructor
      · intro hc
        have h2 := congrArg String.length hc
        simp [String.length_append] at h2
        exact absurd h2.2 (by decide)
      · intro hc
        rcases hc with hc | hc
        · exact absurd hc (by simp)
        · exact hc.elim

theorem agePart_eq_empty (ag : Option Int) :
    agePart ag = "" ↔ (ag = none ∨ ag = some 0) := by
  cases ag with
  | none => simp [agePart]
  | some a =>
    by_cases ha : a = 0
    · simp [agePart, ha]
    · simp only [agePart, ha, if_false, Option.some.injEq, false_or]
      constructor
      · intro hc
        have h2 := congrArg String.length hc
        simp [String.length_append] at h2
        exact absurd h2.2 (by decide)
      · intro hc
        rcases hc with hc | hc
        · exact absurd hc (by simp)
        · exact hc.elim

theorem genderPart_eq_empty (gd : Option String) :
    genderPart gd = "" ↔ (gd = none ∨ gd = some "") := by
  cases gd with
  | none => simp [genderPart]
  | some g =>
    by_cases hg : g = ""
    · simp [genderPart, hg]
    · simp only [genderPart, hg, if_false, Option.some.injEq, false_or]
      constructor
      · intro hc
        have h2 := congrArg String.length hc
        simp [String.length_append] at h2
        exact absurd h2.1 (by decide)
      · intro hc
        rcases hc with hc | hc
        · exact absurd hc (by simp)
        · exact hc.elim

theorem labelOf_eq_empty_iff (fi : FaceInfo) :
    labelOf fi = "" ↔
      (fi.emotion = none ∨ fi.emotion = some "") ∧
      (fi.age = none ∨ fi.age = some 0) ∧
      (fi.gender = none ∨ fi.gender = some "") := by
  rw [labelOf, append3_eq_empty, emotionPart_eq_empty, agePart_eq_empty, genderPart_eq_empty]

theorem torchCandidates_score (pred : List TorchPred) :
    ∀ c ∈ torchCandidates pred, mkRat 7 10 < c.2 := by
  intro c hc
  unfold torchCandidates at hc
  obtain ⟨p, hp, hpc⟩ := List.mem_map.mp hc
  have h2 := (List.mem_filter.mp hp).2
  rw [← hpc]
  simpa using h2

theorem opencv_scores_one (env : Env) (img : Image) (cands : List (Box × Rat))
    (h : detect_faces_opencv env img = .ok cands) :
    ∀ c ∈ cands, c.2 = 1 := by
  unfold detect_faces_opencv at h
  rcases hcv : env.cvtColor img with e | gray
  · rw [hcv] at h
    exact absurd h (by simp)
  · rw [hcv] at h
    dsimp only at h
    rcases hms : env.detectMultiScale gray with e | faces
    · rw [hms] at h
      exact absurd h (by simp)
    · rw [hms] at h
      simp only [Except.ok.injEq] at h
      intro c hc
      rw [← h] at hc
      obtain ⟨r, _, hrc⟩ := List.mem_map.mp hc
      rw [← hrc]

theorem finishDetect_faces (env : Env) (st : ModelFlags) (img : Image)
    (bufs : Buffers) (cands : List (Box × Rat)) :
    (finishDetect env st img bufs cands).faces =
      (processLoop env (finishDetect env st img bufs cands).flags img cands).1 := rfl

theorem finishDetect_input (env : Env) (st : ModelFlags) (img : Image)
    (bufs : Buffers) (cands : List (Box × Rat)) :
    (finishDetect env st img bufs cands).buffers.input = bufs.input := by
  simp only [finishDetect]
  apply foldl_applyCmd_input
  intro d hd
  exact processLoop_cmds_target env _ img _ d hd

theorem torchCandidates_relabel (f : Nat → Nat) :
    ∀ pred : List TorchPred, torchCandidates (relabel f pred) = torchCandidates pred := by
  intro pred
  induction pred with
  | nil => rfl
  | cons p rest ih =>
    simp only [relabel, List.map_cons, torchCandidates, List.filter_cons] at ih ⊢
    by_cases hs : mkRat 7 10 < p.score
    · simpa [hs] using ih
    · simpa [hs] using ih

/-- C1 (amended): `detect_faces` absorbs failures of warm-up and per-face
analysis, but a failure of the selected detector's own foreign calls
(tensor inference on the learned path; colour conversion or cascade
detection on the fallback path) propagates; whenever those calls succeed,
`detect_faces` returns normally, for every image and flag state. -/
theorem detect_faces_total_for_detector_ok (env : Env) (st : ModelFlags) (img : Image)
    (h : detectorCallsOk env img = true) : (detect_faces env st img).isOk = true := by
  unfold detectorCallsOk at h
  unfold detect_faces
  rcases ht : env.torch_available with _ | _
  · rcases hc : env.cascade_available with _ | _
    · simp [Except.isOk, Except.toBool]
    · rw [ht, hc] at h
      simp only [Bool.false_eq_true, if_false, if_true] at h
      rcases hcv : detect_faces_opencv env img with e | cands <;> rw [hcv] at h
      · simp [Except.isOk, Except.toBool] at h
      · simp [Except.isOk, Except.toBool]
  · rw [ht] at h
    simp only [if_true] at h
    rcases hp : env.torchPredict img with e | pred <;> rw [hp] at h
    · simp [Except.isOk, Except.toBool] at h
    · simp [Except.isOk, Except.toBool]

/-- C1 counterexample: with only the cascade detector available and its
`detectMultiScale` call raising (the real behaviour of a cascade loaded
from a missing asset file), the exception crosses the `detect_faces`
boundary. -/
theorem detect_faces_raises_cex :
    detect_faces envCascadeRaises ⟨false, false⟩ imgW = .error () := rfl

/-- Witness for C1 (amended) at a concrete environment. -/
theorem detect_faces_total_for_detector_ok_witness :
    detectorCallsOk envW imgW = true ∧
    (detect_faces envW ⟨false, false⟩ imgW).isOk = true :=
  ⟨rfl, detect_faces_total_for_detector_ok envW ⟨false, false⟩ imgW rfl⟩

/-- C2: on the learned-detector path every returned record has confidence
above 7/10; when only the cascade detector is available every returned
record has confidence exactly 1. -/
theorem detect_faces_confidence (env : Env) (st : ModelFlags) (img : Image)
    (res : DetectResult) (h : detect_faces env st img = .ok res) :
    (env.torch_available = true → ∀ fi ∈ res.faces, mkRat 7 10 < fi.confidence) ∧
    (env.torch_available = false → env.cascade_available = true →
      ∀ fi ∈ res.faces, fi.confidence = 1) := by
  rcases detect_faces_ok_cases env st img res h with
    ⟨ht, pred, hp, hres⟩ | ⟨ht, hc, cands, hcv, hres⟩ | ⟨ht, hc, hres⟩
  · refine ⟨fun _ fi hfi => ?_, fun hf => absurd (ht.symm.trans hf) (by simp)⟩
    rw [hres, finishDetect_faces] at hfi
    obtain ⟨c, hcmem, cmds, hcf⟩ := processLoop_mem env _ img _ fi hfi
    have hs := processFace_some env _ img c fi cmds hcf
    rw [hs.2.1]
    exact torchCandidates_score pred c hcmem
  · refine ⟨fun hf => absurd (ht.symm.trans hf) (by simp), fun _ _ fi hfi => ?_⟩
    rw [hres, finishDetect_faces] at hfi
    obtain ⟨c, hcmem, cmds, hcf⟩ := processLoop_mem env _ img _ fi hfi
    have hs := processFace_some env _ img c fi cmds hcf
    rw [hs.2.1]
    exact opencv_scores_one env img cands hcv c hcmem
  · refine ⟨fun _ fi hfi => ?_, fun _ _ fi hfi => ?_⟩ <;>
      (rw [hres] at hfi; simp at hfi)

/-- Witness for C2 at a concrete learned-detector environment. -/
theorem detect_faces_confidence_witness :
    detect_faces envW ⟨false, false⟩ imgW = .ok resW ∧
    mkRat 7 10 < fiW.confidence :=
  ⟨rfl, (detect_faces_confidence envW ⟨false, false⟩ imgW resW rfl).1 rfl fiW
    (List.mem_cons_self _ _)⟩

/-- C3 (amended): when the emotion analysis raises on a candidate's crop,
that candidate's record is produced with emotion, age and gender all null
(the age/gender analysis is skipped, sharing the single handler), and the
loop continues with the remaining candidates unaffected. -/
theorem emotion_failure_skips_age_gender (env : Env) (st : ModelFlags) (img : Image)
    (c : Box × Rat) (rest : List (Box × Rat))
    (hdf : env.deepface_available = true)
    (hemo : st.emotion_model_loaded = true)
    (hfail : env.analyzeEmotion img c.1 = .error ())
    (hh : 20 ≤ cropHeight img c.1) (hw : 20 ≤ cropWidth img c.1) :
    (processLoop env st img (c :: rest)).1 =
      { box := c.1, confidence := c.2, emotion := none, age := none,
        gender := none } :: (processLoop env st img rest).1 := by
  have henrich : enrichFace env st img c.1
      { box := c.1, confidence := c.2, emotion := none, age := none, gender := none } =
      { box := c.1, confidence := c.2, emotion := none, age := none, gender := none } := by
    unfold enrichFace analyzeFace
    rw [hdf, hemo, hfail]
    simp
  have hguard : (decide (cropHeight img c.1 * cropWidth img c.1 * 3 = 0) ||
      decide (cropHeight img c.1 < 20) || decide (cropWidth img c.1 < 20)) = false := by
    simp only [Bool.or_eq_false_iff, decide_eq_false_iff_not]
    refine ⟨⟨?_, by omega⟩, by omega⟩
    have h1 : cropHeight img c.1 ≠ 0 := by omega
    have h2 : cropWidth img c.1 ≠ 0 := by omega
    simp [Nat.mul_eq_zero, h1, h2]
  have hpf : processFace env st img c =
      some ({ box := c.1, confidence := c.2, emotion := none, age := none, gender := none },
        drawCmdsFor env
          { box := c.1, confidence := c.2, emotion := none, age := none, gender := none }) := by
    simp only [processFace, hguard, Bool.false_eq_true, if_false, henrich]
  rw [processLoop, hpf]

/-- C3 counterexample: both sub-models ready, the age/gender analysis
succeeds on the face's crop, yet because the emotion analysis raises the
record's age and gender stay null — the age/gender analysis never runs. -/
theorem emotion_failure_blocks_age_gender_cex :
    envEmotionRaises.analyzeAgeGender imgW (0, 30, 50, 80) = .ok [⟨30, "Man"⟩] ∧
    detect_faces envEmotionRaises ⟨true, true⟩ imgW = .ok
      { buffers := ⟨imgW, imgW⟩
        faces := [⟨(0, 30, 50, 80), mkRat 9 10, none, none, none⟩]
        flags := ⟨true, true⟩
        attempts := []
        cmds := [DrawCmd.rect Target.result 0 30 50 80] } :=
  ⟨rfl, rfl⟩

/-- Witness for C3 (amended) at a concrete environment. -/
theorem emotion_failure_skips_age_gender_witness :
    envEmotionRaises.analyzeEmotion imgW (0, 30, 50, 80) = .error () ∧
    (processLoop envEmotionRaises ⟨true, true⟩ imgW [((0, 30, 50, 80), mkRat 9 10)]).1 =
      { box := (0, 30, 50, 80), confidence := mkRat 9 10, emotion := none, age := none,
        gender := none } :: (processLoop envEmotionRaises ⟨true, true⟩ imgW []).1 :=
  ⟨rfl, emotion_failure_skips_age_gender envEmotionRaises ⟨true, true⟩ imgW
    ((0, 30, 50, 80), mkRat 9 10) [] rfl rfl rfl (by decide) (by decide)⟩

/-- C4 (amended): warm-up inferences are attempted for BOTH sub-model
groups (the ready one included) whenever DeepFace is available and at
least one flag is still false; no warm-up happens once both flags are
true, and a pending group is retried on every call while its flag stays
false. -/
theorem ensure_models_loaded_attempts (env : Env) (st : ModelFlags) :
    (ensure_models_loaded env st).2 =
      if env.deepface_available &&
          (!st.emotion_model_loaded || !st.age_gender_model_loaded)
      then [WarmGroup.emotion, WarmGroup.ageGender]
      else [] := by
  obtain ⟨e, a⟩ := st
  rcases hdf : env.deepface_available with _ | _ <;> cases e <;> cases a <;>
    simp [ensure_models_loaded, hdf]

/-- C4 counterexample: with the emotion flag already true and the
age/gender flag false, the emotion warm-up is attempted again. -/
theorem warmup_attempted_when_ready_cex :
    (ModelFlags.mk true false).emotion_model_loaded = true ∧
    (ensure_models_loaded envDeepFaceOnly (ModelFlags.mk true false)).2 =
      [WarmGroup.emotion, WarmGroup.ageGender] :=
  ⟨rfl, rfl⟩

/-- C5: every returned face record survives the size filter — the crop its
box implies on the input image is at least 20 pixels in both dimensions. -/
theorem detect_faces_min_crop (env : Env) (st : ModelFlags) (img : Image)
    (res : DetectResult) (h : detect_faces env st img = .ok res) :
    ∀ fi ∈ res.faces, 20 ≤ cropHeight img fi.box ∧ 20 ≤ cropWidth img fi.box := by
  intro fi hfi
  rcases detect_faces_ok_cases env st img res h with
    ⟨-, pred, -, hres⟩ | ⟨-, -, cands, -, hres⟩ | ⟨-, -, hres⟩
  · rw [hres, finishDetect_faces] at hfi
    obtain ⟨c, hcmem, cmds, hcf⟩ := processLoop_mem env _ img _ fi hfi
    have hs := processFace_some env _ img c fi cmds hcf
    rw [hs.1]
    exact ⟨hs.2.2.1, hs.2.2.2.1⟩
  · rw [hres, finishDetect_faces] at hfi
    obtain ⟨c, hcmem, cmds, hcf⟩ := processLoop_mem env _ img _ fi hfi
    have hs := processFace_some env _ img c fi cmds hcf
    rw [hs.1]
    exact ⟨hs.2.2.1, hs.2.2.2.1⟩
  · rw [hres] at hfi
    simp at hfi

/-- Witness for C5 at a concrete environment. -/
theorem detect_faces_min_crop_witness :
    detect_faces envW ⟨false, false⟩ imgW = .ok resW ∧
    (20 ≤ cropHeight imgW fiW.box ∧ 20 ≤ cropWidth imgW fiW.box) :=
  ⟨rfl, detect_faces_min_crop envW ⟨false, false⟩ imgW resW rfl fiW
    (List.mem_cons_self _ _)⟩

/-- C6: the returned faces are never more numerous than the selected
detector's raw detections, and their boxes appear as a subsequence of the
raw detections' boxes — filtering removes candidates but never reorders
the survivors. -/
theorem detect_faces_order (env : Env) (st : ModelFlags) (img : Image)
    (res : DetectResult) (raw : List (Box × Rat))
    (h : detect_faces env st img = .ok res)
    (hraw : rawDetections env img = .ok raw) :
    res.faces.length ≤ raw.length ∧
    (res.faces.map FaceInfo.box).Sublist (raw.map Prod.fst) := by
  rcases detect_faces_ok_cases env st img res h with
    ⟨ht, pred, hp, hres⟩ | ⟨ht, hc, cands, hcv, hres⟩ | ⟨ht, hc, hres⟩
  · unfold rawDetections at hraw
    rw [ht] at hraw
    simp only [if_true] at hraw
    rw [hp] at hraw
    simp only [Except.ok.injEq] at hraw
    subst hraw
    have h1 : (res.faces.map FaceInfo.box).Sublist ((torchCandidates pred).map Prod.fst) := by
      rw [hres, finishDetect_faces]
      exact processLoop_boxes_sublist env _ img _
    have h2 : ((torchCandidates pred).map Prod.fst).Sublist
        ((pred.map (fun p => (p.box, p.score))).map Prod.fst) := by
      simp only [torchCandidates, List.map_map]
      exact List.Sublist.map _ (List.filter_sublist pred)
    have h3 := h1.trans h2
    exact ⟨by simpa using h3.length_le, h3⟩
  · unfold rawDetections at hraw
    rw [ht, hc] at hraw
    simp only [Bool.false_eq_true, if_false, if_true] at hraw
    rw [hcv] at hraw
    simp only [Except.ok.injEq] at hraw
    subst hraw
    have h1 : (res.faces.map FaceInfo.box).Sublist (cands.map Prod.fst) := by
      rw [hres, finishDetect_faces]
      exact processLoop_boxes_sublist env _ img _
    exact ⟨by simpa using h1.length_le, h1⟩
  · rw [hres]
    simp

/-- Witness for C6 at a concrete environment. -/
theorem detect_faces_order_witness :
    detect_faces envW ⟨false, false⟩ imgW = .ok resW ∧
    rawDetections envW imgW = .ok rawW ∧
    (resW.faces.length ≤ rawW.length ∧
      (resW.faces.map FaceInfo.box).Sublist (rawW.map Prod.fst)) :=
  ⟨rfl, rfl, detect_faces_order envW ⟨false, false⟩ imgW resW rawW rfl rfl⟩

/-- C7: `detect_faces` never mutates its input buffer — every drawing call
targets the working copy, and the input buffer after the call equals the
image passed in. -/
theorem detect_faces_preserves_input (env : Env) (st : ModelFlags) (img : Image)
    (res : DetectResult) (h : detect_faces env st img = .ok res) :
    res.buffers.input = img := by
  rcases detect_faces_ok_cases env st img res h with
    ⟨-, pred, -, hres⟩ | ⟨-, -, cands, -, hres⟩ | ⟨-, -, hres⟩
  · rw [hres, finishDetect_input]
  · rw [hres, finishDetect_input]
  · rw [hres]

/-- Witness for C7 at a concrete environment. -/
theorem detect_faces_preserves_input_witness :
    detect_faces envW ⟨false, false⟩ imgW = .ok resW ∧
    resW.buffers.input = imgW :=
  ⟨rfl, detect_faces_preserves_input envW ⟨false, false⟩ imgW resW rfl⟩

/-- C8: with neither detector available, `detect_faces` returns the copy
of the input image and an empty face list, raising nothing. -/
theorem detect_faces_no_capability (env : Env) (st : ModelFlags) (img : Image)
    (h1 : env.torch_available = false) (h2 : env.cascade_available = false) :
    detect_faces env st img = .ok
      { buffers := { input := img, result := img }
        faces := [], flags := st, attempts := [], cmds := [] } := by
  unfold detect_faces
  rw [h1, h2]
  simp

/-- Witness for C8 at a concrete environment. -/
theorem detect_faces_no_capability_witness :
    baseEnv.torch_available = false ∧ baseEnv.cascade_available = false ∧
    detect_faces baseEnv ⟨false, false⟩ imgW = .ok
      { buffers := { input := imgW, result := imgW }
        faces := [], flags := ⟨false, false⟩, attempts := [], cmds := [] } :=
  ⟨rfl, rfl, detect_faces_no_capability baseEnv ⟨false, false⟩ imgW rfl rfl⟩

/-- C9 (amended): for every retained face the drawing calls are the box
rectangle followed — exactly when the label is non-empty — by the opaque
background strip from `(x1, y1-20)` to `(x1 + textWidth, y1)` and the
label text at `(x1, y1-5)`; and the label is empty iff every field is
falsy in Python's sense: emotion/gender null or the empty string, age
null or zero. -/
theorem face_label_cmds (env : Env) (st : ModelFlags) (img : Image) (c : Box × Rat)
    (fi : FaceInfo) (cmds : List DrawCmd)
    (h : processFace env st img c = some (fi, cmds)) :
    cmds = DrawCmd.rect Target.result fi.box.1 fi.box.2.1 fi.box.2.2.1 fi.box.2.2.2 ::
      (if labelOf fi = "" then []
       else [DrawCmd.filledRect Target.result fi.box.1 ((fi.box.2.1 : Int) - 20)
               ((fi.box.1 : Int) + (env.getTextWidth (labelOf fi) : Int)) fi.box.2.1,
             DrawCmd.text Target.result (labelOf fi) fi.box.1 ((fi.box.2.1 : Int) - 5)]) ∧
    (labelOf fi = "" ↔
      (fi.emotion = none ∨ fi.emotion = some "") ∧
      (fi.age = none ∨ fi.age = some 0) ∧
      (fi.gender = none ∨ fi.gender = some "")) := by
  refine ⟨?_, labelOf_eq_empty_iff fi⟩
  rw [(processFace_some env st img c fi cmds h).2.2.2.2]
  rfl

/-- C9 counterexample: the emotion field is non-null (`some ""`) on the
returned record, yet no label is composed and no text or background strip
is drawn — only the box rectangle appears in the trace, because Python
truthiness treats the empty string as absent. -/
theorem label_skipped_for_falsy_cex :
    detect_faces envFalsyEmotion ⟨true, false⟩ imgW = .ok
      { buffers := ⟨imgW, imgW⟩
        faces := [⟨(0, 30, 50, 80), mkRat 9 10, some "", none, none⟩]
        flags := ⟨true, false⟩
        attempts := [WarmGroup.emotion, WarmGroup.ageGender]
        cmds := [DrawCmd.rect Target.result 0 30 50 80] } := rfl

/-- Witness for C9 (amended) at a concrete face with a truthy emotion. -/
theorem face_label_cmds_witness :
    processFace envHappy ⟨true, false⟩ imgW ((0, 30, 50, 80), mkRat 9 10) =
      some (fiHappy, cmdsHappy) ∧
    (cmdsHappy = DrawCmd.rect Target.result fiHappy.box.1 fiHappy.box.2.1
        fiHappy.box.2.2.1 fiHappy.box.2.2.2 ::
      (if labelOf fiHappy = "" then []
       else [DrawCmd.filledRect Target.result fiHappy.box.1 ((fiHappy.box.2.1 : Int) - 20)
               ((fiHappy.box.1 : Int) + (envHappy.getTextWidth (labelOf fiHappy) : Int))
               fiHappy.box.2.1,
             DrawCmd.text Target.result (labelOf fiHappy) fiHappy.box.1
               ((fiHappy.box.2.1 : Int) - 5)]) ∧
     (labelOf fiHappy = "" ↔
       (fiHappy.emotion = none ∨ fiHappy.emotion = some "") ∧
       (fiHappy.age = none ∨ fiHappy.age = some 0) ∧
       (fiHappy.gender = none ∨ fiHappy.gender = some ""))) :=
  ⟨rfl, face_label_cmds envHappy ⟨true, false⟩ imgW ((0, 30, 50, 80), mkRat 9 10)
    fiHappy cmdsHappy rfl⟩

/-- C10: the learned-detector candidate extraction is blind to the class
label — relabelling every prediction leaves the candidates unchanged, and
any prediction scoring above 7/10 contributes its box whatever its label. -/
theorem torch_no_class_filter (pred : List TorchPred) (f : Nat → Nat) (p : TorchPred)
    (hp : p ∈ pred) (hs : mkRat 7 10 < p.score) :
    torchCandidates (relabel f pred) = torchCandidates pred ∧
    (p.box, p.score) ∈ torchCandidates pred := by
  refine ⟨torchCandidates_relabel f pred, ?_⟩
  unfold torchCandidates
  exact List.mem_map.mpr ⟨p, List.mem_filter.mpr ⟨hp, by simpa using hs⟩, rfl⟩

/-- Witness for C10 at a concrete prediction list. -/
theorem torch_no_class_filter_witness :
    (⟨(0, 30, 50, 80), mkRat 9 10, 1⟩ : TorchPred) ∈ predsW ∧
    mkRat 7 10 < mkRat 9 10 ∧
    (torchCandidates (relabel (fun _ => 0) predsW) = torchCandidates predsW ∧
      (((0, 30, 50, 80) : Box), mkRat 9 10) ∈ torchCandidates predsW) :=
  ⟨List.mem_cons_self _ _, by decide,
    torch_no_class_filter predsW (fun _ => 0) _ (List.mem_cons_self _ _) (by decide)⟩
